import Mathlib

/-!
Shallow embedding of `thrift/lib/cpp/async/TUndelayedDestruction.h`.

The header defines `TUndelayedDestruction<TDD>`, an adapter over a
delayed-destruction base `TDD` that re-exposes a public destructor.
Its member functions are modelled as traces of the primitive effects
they perform on the wrapped base object and on the process, and the
class-level declaration facts (virtual destructor, explicit forwarding
constructor, deleted copy operations) are transcribed as data together
with the relevant C++ initialization and dispatch semantics.
-/

namespace UndelayedDestruction

/-- Observable primitive effects that member functions of the adapter can
perform on the wrapped base object and on the process.  The vocabulary
includes `writeGuardCount` (how the base type mutates the destructor
guard count) so that its absence from the adapter's own traces is a
meaningful statement. -/
inductive Effect : Type
  | readGuardCount (g : Int)
  | writeGuardCount (g : Int)
  | abortProcess
  | callBaseDestroy
  | assertFailure
  deriving DecidableEq, Repr

/-- Trace of the adapter's protected `destroy()` override: its whole body
is the single pass-through call `this->TDD::destroy()`, re-entering the
base type's teardown dispatch. -/
def destroy : List Effect := [Effect.callBaseDestroy]

/-- Trace of the adapter's public destructor `~TUndelayedDestruction()`,
as a function of the value `g` returned by the read
`this->getDestructorGuardCount()`.  Per the source: if the count is
nonzero, `abort()` is called and nothing further executes; otherwise the
destructor invokes `this->destroy()`, which (the dynamic type during
destructor execution being the adapter) dispatches to the adapter's
`destroy()` override. -/
def destructor (g : Int) : List Effect :=
  Effect.readGuardCount g ::
    (if g ≠ 0 then [Effect.abortProcess] else destroy)

/-- Trace of the adapter's protected `destroyNow(bool delayed)` in a
debug build: `assert(!delayed)` traps when `delayed` is true, and
otherwise the body performs nothing (the cast `(void)delayed` only
silences an unused-variable warning). -/
def destroyNowDebug (delayed : Bool) : List Effect :=
  if delayed then [Effect.assertFailure] else []

/-- Trace of the adapter's protected `destroyNow(bool delayed)` in a
release build (`NDEBUG`): the assert is compiled out and the body
performs nothing for either flag value. -/
def destroyNowRelease (_delayed : Bool) : List Effect := []

/-- Value category of a constructor argument as deduced by the
forwarding-reference parameter pack `Args&& ...args`. -/
inductive ValCat : Type
  | lvalue
  | rvalue
  deriving DecidableEq, Repr

/-- Semantics of `std::forward<Args>(args)...` inside a
perfect-forwarding context: every argument is handed on as-is, with its
deduced value category intact (lvalues stay lvalues, rvalues stay
rvalues, so movable-only rvalue arguments are moved, not copied). -/
def stdForward {V : Type} (a : ValCat × V) : ValCat × V := a

/-- The forwarding constructor
`explicit TUndelayedDestruction(Args&& ...args) : TDD(std::forward<Args>(args)...)`:
its entire behavior is the mem-initializer handing the forwarded
argument list to the base constructor `baseCtor`, which produces the
embedded base state. -/
def construct {V σ : Type} (baseCtor : List (ValCat × V) → σ)
    (args : List (ValCat × V)) : σ :=
  baseCtor (args.map stdForward)

/-- The same forwarding constructor run against a base constructor that
can fail (throw): the shim wraps nothing around the base call, so the
outcome is whatever the base constructor produces. -/
def constructE {V σ ε : Type} (baseCtor : List (ValCat × V) → Except ε σ)
    (args : List (ValCat × V)) : Except ε σ :=
  baseCtor (args.map stdForward)

/-- Declaration facts about a member function, as written in the class
body. -/
structure MemberDecl : Type where
  isExplicit : Bool
  isDeleted : Bool
  deriving DecidableEq, Repr

/-- The variadic forwarding constructor, declared
`explicit TUndelayedDestruction(Args&& ...args)`. -/
def forwardingCtor : MemberDecl := { isExplicit := true, isDeleted := false }

/-- The copy constructor, declared
`TUndelayedDestruction(TUndelayedDestruction const &) = delete`. -/
def copyCtor : MemberDecl := { isExplicit := false, isDeleted := true }

/-- The copy assignment operator, declared
`TUndelayedDestruction& operator=(TUndelayedDestruction const &) = delete`. -/
def copyAssign : MemberDecl := { isExplicit := false, isDeleted := true }

/-- C++ semantics of a deleted member: any program whose overload
resolution selects it is ill-formed and diagnosed during translation,
for every source expression, before any code runs.  In the model, a
declaration is compile-time rejected exactly when it is deleted. -/
def compileTimeRejected (m : MemberDecl) : Bool := m.isDeleted

/-- C++ semantics of copy-initialization (an implicit conversion from a
single argument): `explicit` constructors are excluded from
consideration, and deleted members are unusable. -/
def usableForImplicitConv (m : MemberDecl) : Bool :=
  !m.isExplicit && !m.isDeleted

/-- C++ semantics of direct-initialization: any non-deleted constructor
may be used, explicit or not. -/
def usableForDirectInit (m : MemberDecl) : Bool := !m.isDeleted

/-- The adapter's destructor is declared
`virtual ~TUndelayedDestruction()`. -/
def dtorIsVirtual : Bool := true

/-- C++ semantics of destroying, through a pointer or reference whose
static type is some class `B`, an object of a class further derived from
`B`: when `B`'s destructor is virtual, the most-derived destructor chain
runs — the derived destructor body first, then `B`'s own destructor body
`tail`; when it is not virtual, the behavior is undefined (`none`). -/
def destructThroughPtr (isVirtual : Bool)
    (derivedBody tail : List Effect) : Option (List Effect) :=
  if isVirtual then some (derivedBody ++ tail) else none

/-- Forwarding is the identity on every argument, hence on every
argument list. -/
theorem map_stdForward {V : Type} (args : List (ValCat × V)) :
    args.map stdForward = args := by
  induction args with
  | nil => rfl
  | cons a as ih => simp [stdForward, ih]

/-- C1: for every guard count g > 0 at the moment the adapter's
destructor runs, the destructor's trace is the guard-count read followed
immediately by the fatal, unconditional `abort()`, and the base's
destroy path (teardown) never executes. -/
theorem c1_positive_guard_aborts_before_teardown (g : Int) (h : 0 < g) :
    destructor g = [Effect.readGuardCount g, Effect.abortProcess] ∧
      Effect.callBaseDestroy ∉ destructor g := by
  have hg : g ≠ 0 := by omega
  refine ⟨by simp [destructor, hg], ?_⟩
  simp [destructor, hg]

/-- Witness for C1 at the concrete guard count 1. -/
theorem c1_positive_guard_aborts_before_teardown_witness :
    destructor 1 = [Effect.readGuardCount 1, Effect.abortProcess] ∧
      Effect.callBaseDestroy ∉ destructor 1 :=
  c1_positive_guard_aborts_before_teardown 1 (by decide)

/-- C2: when the guard count equals 0 at destruction time, the
destructor completes normally (no abort), and its trace is the guard
read followed by the adapter's pass-through `destroy()` override, so the
base teardown dispatch `TDD::destroy()` is invoked exactly once. -/
theorem c2_zero_guard_destroys_exactly_once (g : Int) (h : g = 0) :
    destructor g = Effect.readGuardCount g :: destroy ∧
      (destructor g).count Effect.callBaseDestroy = 1 ∧
      Effect.abortProcess ∉ destructor g := by
  subst h
  refine ⟨?_, ?_, ?_⟩ <;> decide

/-- Witness for C2 at the concrete guard count 0. -/
theorem c2_zero_guard_destroys_exactly_once_witness :
    destructor 0 = Effect.readGuardCount 0 :: destroy ∧
      (destructor 0).count Effect.callBaseDestroy = 1 ∧
      Effect.abortProcess ∉ destructor 0 :=
  c2_zero_guard_destroys_exactly_once 0 rfl

/-- C3: for every argument list of any arity, constructing the adapter
forwards the arguments unchanged — each with its deduced value category
intact, covering movable-only (rvalue) arguments — to the base
constructor, and produces exactly the base state that constructing the
base directly with the same arguments produces. -/
theorem c3_construction_equals_direct_base_construction
    {V σ : Type} (baseCtor : List (ValCat × V) → σ)
    (args : List (ValCat × V)) :
    construct baseCtor args = baseCtor args := by
  simp [construct, map_stdForward]

/-- C4: invoking `destroyNow` with the deferred flag true in a debug
build fires the assertion trap; with the flag false it is a no-op, and
in a release build it is a no-op with no observable effect for either
flag value. -/
theorem c4_destroyNow_asserts_on_delayed_else_noop :
    destroyNowDebug true = [Effect.assertFailure] ∧
      destroyNowDebug false = [] ∧
      (∀ d : Bool, destroyNowRelease d = []) :=
  ⟨rfl, rfl, fun _ => rfl⟩

/-- C5: both the copy constructor and the copy assignment operator of
the adapter are declared deleted, so every copy construction and every
copy assignment, from any source expression, is rejected during
translation — a static, compile-time rejection, not a runtime check. -/
theorem c5_copy_operations_rejected_at_compile_time :
    compileTimeRejected copyCtor = true ∧
      compileTimeRejected copyAssign = true ∧
      usableForDirectInit copyCtor = false ∧
      usableForImplicitConv copyCtor = false := by
  decide

/-- C6: every effect the adapter's destructor performs, at any guard
count, is the guard-count read, the abort, or the call into the base's
teardown: in particular the destructor never writes the guard count,
leaving all guard-count mutation to the base type. -/
theorem c6_destructor_never_mutates_guard_count
    (g : Int) (e : Effect) (he : e ∈ destructor g) :
    (∀ v : Int, e ≠ Effect.writeGuardCount v) ∧
      (e = Effect.readGuardCount g ∨ e = Effect.abortProcess ∨
        e = Effect.callBaseDestroy) := by
  unfold destructor at he
  by_cases hg : g = 0
  · subst hg
    simp only [destroy] at he
    have : e = Effect.readGuardCount 0 ∨ e = Effect.callBaseDestroy := by
      simpa using he
    rcases this with h | h <;> subst h <;> simp
  · simp only [hg, if_pos, ne_eq, not_false_eq_true] at he
    have : e = Effect.readGuardCount g ∨ e = Effect.abortProcess := by
      simpa [hg] using he
    rcases this with h | h <;> subst h <;> simp

/-- Witness for C6 at guard count 0 and the guard-read effect. -/
theorem c6_destructor_never_mutates_guard_count_witness :
    (∀ v : Int, Effect.readGuardCount 0 ≠ Effect.writeGuardCount v) ∧
      (Effect.readGuardCount 0 = Effect.readGuardCount 0 ∨
        Effect.readGuardCount 0 = Effect.abortProcess ∨
        Effect.readGuardCount 0 = Effect.callBaseDestroy) :=
  c6_destructor_never_mutates_guard_count 0 (Effect.readGuardCount 0)
    (by decide)

/-- C7: the forwarding shim adds no validation, translation or wrapping:
for every argument list it returns exactly what the base constructor
returns, so in particular any failure the base constructor raises
propagates unchanged to the caller. -/
theorem c7_base_constructor_failure_propagates_unchanged
    {V σ ε : Type} (baseCtor : List (ValCat × V) → Except ε σ)
    (args : List (ValCat × V)) (e : ε)
    (h : baseCtor args = Except.error e) :
    constructE baseCtor args = baseCtor args ∧
      constructE baseCtor args = Except.error e := by
  constructor
  · simp [constructE, map_stdForward]
  · simp [constructE, map_stdForward, h]

/-- Witness for C7: a base constructor that fails with error 7 on the
empty argument list; the adapter reports exactly that error. -/
theorem c7_base_constructor_failure_propagates_unchanged_witness :
    constructE (fun _ : List (ValCat × Nat) => (Except.error 7 : Except Nat Nat)) [] =
        (fun _ : List (ValCat × Nat) => (Except.error 7 : Except Nat Nat)) [] ∧
      constructE (fun _ : List (ValCat × Nat) => (Except.error 7 : Except Nat Nat)) [] =
        Except.error 7 :=
  c7_base_constructor_failure_propagates_unchanged
    (fun _ => Except.error 7) [] 7 rfl

/-- C8: the destructor's guard check is the inequality test
`getDestructorGuardCount() != 0`, so for every integer guard count g the
destruction aborts if and only if g ≠ 0: every nonzero value, a
contract-violating negative one included, is fatal, and only exactly
zero permits teardown. -/
theorem c8_abort_iff_guard_nonzero (g : Int) :
    Effect.abortProcess ∈ destructor g ↔ g ≠ 0 := by
  by_cases hg : g = 0
  · subst hg
    simp [destructor, destroy]
  · simp [destructor, hg]

/-- C9: the adapter's destructor is declared virtual, so destroying a
further-derived instance through a pointer or reference of adapter type
is well-defined and runs the most-derived chain, whose trace ends with
the adapter's own destructor body: the guard-count check and the routing
into base teardown execute on that destruction path too, never
bypassed. -/
theorem c9_virtual_destructor_check_runs_on_derived_destruction
    (derivedBody : List Effect) (g : Int) :
    dtorIsVirtual = true ∧
      destructThroughPtr dtorIsVirtual derivedBody (destructor g) =
        some (derivedBody ++ destructor g) ∧
      Effect.readGuardCount g ∈ derivedBody ++ destructor g := by
  refine ⟨rfl, rfl, ?_⟩
  apply List.mem_append_right
  simp [destructor]

/-- C10: the forwarding constructor is declared explicit, so
copy-initialization (an implicit conversion from a single argument to
the adapter type) can never select it — even when the base type's own
corresponding constructor would permit the conversion — while explicit
direct-initialization remains available. -/
theorem c10_explicit_ctor_blocks_implicit_conversion :
    forwardingCtor.isExplicit = true ∧
      usableForImplicitConv forwardingCtor = false ∧
      usableForDirectInit forwardingCtor = true := by
  decide

end UndelayedDestruction
